import Mathlib

/-!
Shallow embedding of the chambers-api real-time voice bridge:
the OpenAI realtime client (services/openaiRealtime.ts) and the
per-connection WebSocket session manager (routes/voice route file),
together with the token generator of routes/auth.ts.
-/

namespace Chambers

/-- JavaScript string truthiness: an absent value and the empty string are falsy. -/
def truthy : Option String → Bool
  | none => false
  | some s => s ≠ ""

/-- JavaScript `a || b` on optional string values. -/
def jsOr (a b : Option String) : Option String :=
  if truthy a then a else b

/-! ### Upstream speech client (OpenAIRealtimeClient) -/

/-- State of one OpenAIRealtimeClient instance: whether the outbound socket
is open, the isConnected flag, and the recorded current response item id. -/
structure UpstreamState where
  wsOpen : Bool
  isConnected : Bool
  currentResponseItemId : Option String
  deriving DecidableEq, Repr

/-- Frames the client sends on the upstream (OpenAI-bound) socket. -/
inductive UpFrame where
  | sessionUpdate (voice : String)
  | inputAudioBufferAppend (audio : String)
  | responseCancel
  | inputAudioBufferClear
  deriving DecidableEq, Repr

/-- Callback invocations the upstream client makes into its configured handlers. -/
inductive CallbackEvent where
  | onAudioDelta (audio itemId : String)
  | onAudioDone (itemId : String)
  | onTranscriptDelta (text itemId : String)
  | onTranscriptDone (text itemId : String)
  | onUserSpeechStarted
  | onUserSpeechStopped
  | onError (message : String)
  | onClose
  deriving DecidableEq, Repr

/-- `send`: the frame goes out only while the upstream socket is open. -/
def upSend (st : UpstreamState) (f : UpFrame) : List UpFrame :=
  if st.wsOpen then [f] else []

/-- `sendAudio`: no-op unless connected; otherwise one input_audio_buffer.append frame. -/
def sendAudio (st : UpstreamState) (base64Audio : String) : List UpFrame :=
  if !st.isConnected then [] else upSend st (UpFrame.inputAudioBufferAppend base64Audio)

/-- `interrupt`: no-op unless connected; otherwise response.cancel then input_audio_buffer.clear. -/
def upInterrupt (st : UpstreamState) : List UpFrame :=
  if !st.isConnected then []
  else upSend st UpFrame.responseCancel ++ upSend st UpFrame.inputAudioBufferClear

/-- `close`: drops the socket and clears the connected flag; safe to repeat. -/
def closeClient (st : UpstreamState) : UpstreamState :=
  { st with wsOpen := false, isConnected := false }

/-- One decoded JSON message from the upstream socket. Optional fields model
absent JSON keys; `itemType` and `itemFieldId` flatten the nested
`item.type` and `item.id` fields. -/
structure UpstreamEvent where
  type : String
  delta : Option String := none
  transcript : Option String := none
  item_id : Option String := none
  itemType : Option String := none
  itemFieldId : Option String := none
  errMessage : Option String := none
  deriving DecidableEq, Repr

/-- The id-resolution chain used on every delta/done event. -/
def resolveItemId (eventId curr : Option String) : String :=
  (jsOr (jsOr eventId curr) (some ("unknown"))).getD "unknown"

/-- `handleMessage` of the upstream client: dispatch on the upstream event
type, returning the updated client state and the callbacks invoked. -/
def handleUpstreamMessage (st : UpstreamState) (m : UpstreamEvent) :
    UpstreamState × List CallbackEvent :=
  if m.type = "session.created" ∨ m.type = "session.updated" then (st, [])
  else if m.type = "input_audio_buffer.speech_started" then
    (st, [CallbackEvent.onUserSpeechStarted])
  else if m.type = "input_audio_buffer.speech_stopped" then
    (st, [CallbackEvent.onUserSpeechStopped])
  else if m.type = "response.created" then (st, [])
  else if m.type = "response.output_item.added" then
    if m.itemType = some ("message") then
      ({ st with currentResponseItemId := m.itemFieldId }, [])
    else (st, [])
  else if m.type = "response.audio.delta" then
    if truthy m.delta then
      (st, [CallbackEvent.onAudioDelta (m.delta.getD "")
              (resolveItemId m.item_id st.currentResponseItemId)])
    else (st, [])
  else if m.type = "response.audio.done" then
    (st, [CallbackEvent.onAudioDone (resolveItemId m.item_id st.currentResponseItemId)])
  else if m.type = "response.audio_transcript.delta" then
    if truthy m.delta then
      (st, [CallbackEvent.onTranscriptDelta (m.delta.getD "")
              (resolveItemId m.item_id st.currentResponseItemId)])
    else (st, [])
  else if m.type = "response.audio_transcript.done" then
    if truthy m.transcript then
      (st, [CallbackEvent.onTranscriptDone (m.transcript.getD "")
              (resolveItemId m.item_id st.currentResponseItemId)])
    else (st, [])
  else if m.type = "response.done" then
    ({ st with currentResponseItemId := none }, [])
  else if m.type = "error" then
    (st, [CallbackEvent.onError ((jsOr m.errMessage (some ("Unknown OpenAI error"))).getD "")])
  else (st, [])

/-! ### Tokens -/

/-- A decoded JWT payload, restricted to the claims this system reads:
the standard `sub` claim and a `userId` claim. -/
structure JwtPayload where
  sub : Option String := none
  userIdClaim : Option String := none
  deriving DecidableEq, Repr

/-- A token: its payload, plus whether its signature verifies against the app secret. -/
structure Token where
  payload : JwtPayload
  signatureValid : Bool
  deriving DecidableEq, Repr

/-- `app.jwt.verify`: yields the payload of a validly signed token, throws otherwise. -/
def jwtVerify (t : Token) : Option JwtPayload :=
  if t.signatureValid then some t.payload else none

/-- `generateTokens` of the auth routes: the access token is signed with a
payload whose only claim is `sub` set to the user id. -/
def generateTokens (userId : String) : Token :=
  { payload := { sub := some userId, userIdClaim := none }, signatureValid := true }

/-! ### Connection session manager -/

/-- Per-connection rate-limit record: count in the current window and the reset timestamp. -/
structure RateLimitRecord where
  count : Nat
  resetAt : Nat
  deriving DecidableEq, Repr

def RATE_LIMIT_PER_SEC : Nat := 10

def SESSION_TIMEOUT_MS : Nat := 600000

/-- Lookup in the shared rate-limit registry (a Map keyed by connection id). -/
def mapGet : List (String × RateLimitRecord) → String → Option RateLimitRecord
  | [], _ => none
  | (k', v) :: rest, k => if k' = k then some v else mapGet rest k

/-- Insert or replace in the rate-limit registry. -/
def mapSet : List (String × RateLimitRecord) → String → RateLimitRecord →
    List (String × RateLimitRecord)
  | [], k, v => [(k, v)]
  | (k', v') :: rest, k, v =>
    if k' = k then (k, v) :: rest else (k', v') :: mapSet rest k v

/-- Delete from the rate-limit registry. -/
def mapErase : List (String × RateLimitRecord) → String → List (String × RateLimitRecord)
  | [], _ => []
  | (k', v') :: rest, k =>
    if k' = k then mapErase rest k else (k', v') :: mapErase rest k

/-- Frames sent to the end-user client socket. -/
inductive Frame where
  | authSuccess
  | sessionReady (sessionId : String)
  | sessionEnded (reason : String)
  | audioChunkOut (audio itemId : String)
  | audioDoneOut (itemId : String)
  | transcriptDeltaOut (text itemId : String)
  | transcriptDoneOut (text itemId : String)
  | userSpeechStartedOut
  | userSpeechStoppedOut
  | errorOut (message code : String)
  deriving DecidableEq, Repr

/-- Observable effects of one handler run, in program order. -/
inductive Action where
  | emit (f : Frame)
  | upstreamSend (f : UpFrame)
  | upstreamCloseCall
  | upstreamCreate (voice : String)
  | upstreamConnect
  | armTimer (id deadline : Nat)
  | clearTimer (id : Nat)
  | deleteRateLimit (connId : String)
  | socketClose (code : Nat) (reason : String)
  deriving DecidableEq, Repr

/-- Per-connection state of the voice route handler. Timers carry a unique
id and an absolute deadline; `sessionTimeout` is the tracked timer handle. -/
structure ConnState where
  connectionId : String
  userId : Option String
  openaiClient : Option UpstreamState
  sessionTimeout : Option Nat
  timers : List (Nat × Nat)
  nextTimerId : Nat
  rateLimits : List (String × RateLimitRecord)
  socketOpen : Bool
  deriving DecidableEq, Repr

/-- State right after the socket is accepted: the rate-limit record is
registered with count 0 and a reset timestamp one second out. -/
def initConn (connId : String) (now : Nat) : ConnState :=
  { connectionId := connId, userId := none, openaiClient := none,
    sessionTimeout := none, timers := [], nextTimerId := 0,
    rateLimits := mapSet [] connId ⟨0, now + 1000⟩, socketOpen := true }

/-- `sendToClient`: the frame goes out only while the client socket is open. -/
def sendToClient (st : ConnState) (f : Frame) : List Action :=
  if st.socketOpen then [Action.emit f] else []

/-- clearTimeout on a timer handle: the timer with that id stops being live. -/
def removeTimer (timers : List (Nat × Nat)) (id : Nat) : List (Nat × Nat) :=
  timers.filter (fun p => p.1 != id)

/-- `closeConnection`: the uniform cleanup routine. Emits session.ended if the
socket is open, clears the tracked timer, closes the upstream client,
deletes the rate-limit record, closes the socket with code 1000. -/
def closeConnection (reason : String) (st : ConnState) : ConnState × List Action :=
  let a1 := sendToClient st (Frame.sessionEnded reason)
  let st1 :=
    match st.sessionTimeout with
    | some id => { st with timers := removeTimer st.timers id }
    | none => st
  let a2 :=
    match st.sessionTimeout with
    | some id => [Action.clearTimer id]
    | none => []
  let st2 :=
    match st1.openaiClient with
    | some c => { st1 with openaiClient := some (closeClient c) }
    | none => st1
  let a3 :=
    match st1.openaiClient with
    | some _ => [Action.upstreamCloseCall]
    | none => []
  let st3 := { st2 with rateLimits := mapErase st2.rateLimits st2.connectionId }
  let a4 := [Action.deleteRateLimit st2.connectionId]
  let st4 := if st3.socketOpen then { st3 with socketOpen := false } else st3
  let a5 := if st3.socketOpen then [Action.socketClose 1000 reason] else []
  (st4, a1 ++ a2 ++ a3 ++ a4 ++ a5)

/-- `checkRateLimit`: missing record rejects; an elapsed window lazily resets
to count 1; a full window rejects; otherwise the count increments. -/
def checkRateLimit (now : Nat) (st : ConnState) : Bool × ConnState :=
  match mapGet st.rateLimits st.connectionId with
  | none => (false, st)
  | some limit =>
    if now > limit.resetAt then
      (true, { st with rateLimits := mapSet st.rateLimits st.connectionId ⟨1, now + 1000⟩ })
    else if limit.count ≥ RATE_LIMIT_PER_SEC then
      (false, st)
    else
      (true, { st with rateLimits :=
                 mapSet st.rateLimits st.connectionId ⟨limit.count + 1, limit.resetAt⟩ })

/-- The `authenticate` closure of the voice route: verifies the token and, on
success, stores the decoded `userId` claim of the payload as the subject. -/
def authenticateConn (st : ConnState) (t : Token) : Bool × ConnState :=
  match jwtVerify t with
  | some payload => (true, { st with userId := payload.userIdClaim })
  | none => (false, st)

/-- One parsed inbound client frame; `malformed` stands for unparsable JSON. -/
inductive ClientMsg where
  | auth (token : Option Token)
  | sessionStart (voice : Option String)
  | audioChunk (audio : Option String)
  | interrupt
  | sessionEnd
  | other (ty : String)
  | malformed
  deriving DecidableEq, Repr

/-- Result of the upstream `connect()` call made inside session.start. -/
inductive ConnectOutcome where
  | success
  | errorBeforeOpen (message : String)
  | connectTimeout
  deriving DecidableEq, Repr

/-- The session.start case block: auth guard, close of any existing client,
construction and connect of the new client, and the three connect outcomes. -/
def handleSessionStart (now : Nat) (voice : Option String) (outcome : ConnectOutcome)
    (st : ConnState) : ConnState × List Action :=
  if ¬ truthy st.userId then
    (st, sendToClient st (Frame.errorOut "Not authenticated" "NOT_AUTHENTICATED"))
  else
    let st1 :=
      match st.openaiClient with
      | some c => { st with openaiClient := some (closeClient c) }
      | none => st
    let aClose :=
      match st.openaiClient with
      | some _ => [Action.upstreamCloseCall]
      | none => []
    let v := (jsOr voice (some ("sage"))).getD "sage"
    let newClient : UpstreamState :=
      { wsOpen := false, isConnected := false, currentResponseItemId := none }
    let st2 := { st1 with openaiClient := some newClient }
    let aCreate := [Action.upstreamCreate v, Action.upstreamConnect]
    match outcome with
    | ConnectOutcome.success =>
      let connected : UpstreamState := { newClient with wsOpen := true, isConnected := true }
      let st3 := { st2 with openaiClient := some connected }
      let aCfg := [Action.upstreamSend (UpFrame.sessionUpdate v)]
      let aReady := sendToClient st3 (Frame.sessionReady st3.connectionId)
      let tid := st3.nextTimerId
      let st4 := { st3 with
                   sessionTimeout := some tid,
                   timers := st3.timers ++ [(tid, now + SESSION_TIMEOUT_MS)],
                   nextTimerId := tid + 1 }
      (st4, aClose ++ aCreate ++ aCfg ++ aReady ++
        [Action.armTimer tid (now + SESSION_TIMEOUT_MS)])
    | ConnectOutcome.errorBeforeOpen m =>
      let aErr := sendToClient st2 (Frame.errorOut m "OPENAI_ERROR")
      let aFail := sendToClient st2
        (Frame.errorOut "Failed to start voice session" "CONNECTION_FAILED")
      (st2, aClose ++ aCreate ++ aErr ++ aFail)
    | ConnectOutcome.connectTimeout =>
      let st3 := { st2 with openaiClient := some (closeClient newClient) }
      let aFail := sendToClient st3
        (Frame.errorOut "Failed to start voice session" "CONNECTION_FAILED")
      (st3, aClose ++ aCreate ++ aFail)

/-- Dispatch of one parsed frame after the rate-limit gate. -/
def dispatch (now : Nat) (m : ClientMsg) (outcome : ConnectOutcome) (st : ConnState) :
    ConnState × List Action :=
  match m with
  | ClientMsg.auth tok =>
    match tok with
    | none =>
      let a := sendToClient st (Frame.errorOut "Token required" "AUTH_REQUIRED")
      let r := closeConnection "No token provided" st
      (r.1, a ++ r.2)
    | some t =>
      let p := authenticateConn st t
      if p.1 then (p.2, sendToClient p.2 Frame.authSuccess)
      else
        let a := sendToClient p.2 (Frame.errorOut "Invalid token" "AUTH_FAILED")
        let r := closeConnection "Authentication failed" p.2
        (r.1, a ++ r.2)
  | ClientMsg.sessionStart voice => handleSessionStart now voice outcome st
  | ClientMsg.audioChunk audio =>
    match st.openaiClient with
    | none => (st, sendToClient st (Frame.errorOut "No active session" "NO_SESSION"))
    | some c =>
      if truthy audio then (st, (sendAudio c (audio.getD "")).map Action.upstreamSend)
      else (st, [])
  | ClientMsg.interrupt =>
    match st.openaiClient with
    | some c => (st, (upInterrupt c).map Action.upstreamSend)
    | none => (st, [])
  | ClientMsg.sessionEnd => closeConnection "Client requested end" st
  | ClientMsg.other _ => (st, [])
  | ClientMsg.malformed => (st, [])

/-- Is the frame an auth frame (which bypasses the rate limiter)? -/
def isAuthMsg : ClientMsg → Bool
  | ClientMsg.auth _ => true
  | _ => false

/-- The socket message handler: parse failure emits INVALID_MESSAGE; every
other frame except auth passes the rate limiter first, a rejection emitting
RATE_LIMIT and dropping the frame; then the dispatch by type. -/
def handleClientMessage (now : Nat) (m : ClientMsg) (outcome : ConnectOutcome)
    (st : ConnState) : ConnState × List Action :=
  match m with
  | ClientMsg.malformed =>
    (st, sendToClient st (Frame.errorOut "Invalid message format" "INVALID_MESSAGE"))
  | _ =>
    if isAuthMsg m then dispatch now m outcome st
    else
      let p := checkRateLimit now st
      if p.1 then dispatch now m outcome p.2
      else (p.2, sendToClient p.2 (Frame.errorOut "Rate limit exceeded" "RATE_LIMIT"))

/-- The onClose callback wired at session.start: marks the client
disconnected and sends a session.ended frame; nothing else. -/
def handleUpstreamClose (st : ConnState) : ConnState × List Action :=
  match st.openaiClient with
  | none => (st, [])
  | some c =>
    let st1 := { st with openaiClient := some { c with wsOpen := false, isConnected := false } }
    (st1, sendToClient st1 (Frame.sessionEnded "OpenAI connection closed"))

/-- The transport close handler: clears the tracked timer, closes the
upstream client, deletes the rate-limit record; no session.ended frame. -/
def handleSocketClose (st : ConnState) : ConnState × List Action :=
  let st0 := { st with socketOpen := false }
  let st1 :=
    match st0.sessionTimeout with
    | some id => { st0 with timers := removeTimer st0.timers id }
    | none => st0
  let a1 :=
    match st0.sessionTimeout with
    | some id => [Action.clearTimer id]
    | none => []
  let st2 :=
    match st1.openaiClient with
    | some c => { st1 with openaiClient := some (closeClient c) }
    | none => st1
  let a2 :=
    match st1.openaiClient with
    | some _ => [Action.upstreamCloseCall]
    | none => []
  let st3 := { st2 with rateLimits := mapErase st2.rateLimits st2.connectionId }
  (st3, a1 ++ a2 ++ [Action.deleteRateLimit st2.connectionId])

/-- A session-timeout timer firing: if still live it is consumed and runs
the uniform cleanup with reason Session timeout. -/
def handleTimerFire (id : Nat) (st : ConnState) : ConnState × List Action :=
  if st.timers.any (fun p => p.1 == id) then
    closeConnection "Session timeout" { st with timers := removeTimer st.timers id }
  else (st, [])

/-- External triggers acting on one connection. -/
inductive Trigger where
  | msg (now : Nat) (m : ClientMsg) (outcome : ConnectOutcome)
  | upstreamClose
  | socketClosed
  | timerFire (id : Nat)
  deriving DecidableEq, Repr

/-- One trigger step. -/
def step (st : ConnState) : Trigger → ConnState × List Action
  | Trigger.msg now m outcome => handleClientMessage now m outcome st
  | Trigger.upstreamClose => handleUpstreamClose st
  | Trigger.socketClosed => handleSocketClose st
  | Trigger.timerFire id => handleTimerFire id st

/-- Run a sequence of triggers, concatenating the action traces. -/
def run (st : ConnState) : List Trigger → ConnState × List Action
  | [] => (st, [])
  | t :: ts =>
    let p := step st t
    let q := run p.1 ts
    (q.1, p.2 ++ q.2)

/-- Is this action the emission of a session.ended frame to the client? -/
def isSessionEnded : Action → Bool
  | Action.emit (Frame.sessionEnded _) => true
  | _ => false

/-- Number of session.ended frames emitted in a trace. -/
def countSessionEnded (as : List Action) : Nat :=
  (as.filter isSessionEnded).length

/-- Is this action the emission of any frame to the client? -/
def isEmit : Action → Bool
  | Action.emit _ => true
  | _ => false

/-- Is this action the emission of an error frame whose code is RATE_LIMIT? -/
def isRateLimitReject : Action → Bool
  | Action.emit (Frame.errorOut _ c) => c == "RATE_LIMIT"
  | _ => false

/-- Is this action the arming of a timer? -/
def isArmTimer : Action → Bool
  | Action.armTimer _ _ => true
  | _ => false

/-- Equality of all per-connection state except the rate-limit registry. -/
def sameCore (s t : ConnState) : Prop :=
  s.connectionId = t.connectionId ∧ s.userId = t.userId ∧
  s.openaiClient = t.openaiClient ∧ s.sessionTimeout = t.sessionTimeout ∧
  s.timers = t.timers ∧ s.nextTimerId = t.nextTimerId ∧ s.socketOpen = t.socketOpen

/-- A validly signed token carrying a userId claim (as the voice route expects). -/
def tokenJudge : Token :=
  { payload := { sub := none, userIdClaim := some ("judge-7") }, signatureValid := true }

/-! ### Helper lemmas -/

theorem removeTimer_idem (t : List (Nat × Nat)) (id : Nat) :
    removeTimer (removeTimer t id) id = removeTimer t id := by
  simp [removeTimer, List.filter_filter]

theorem mapErase_idem (m : List (String × RateLimitRecord)) (k : String) :
    mapErase (mapErase m k) k = mapErase m k := by
  induction m with
  | nil => rfl
  | cons p rest ih =>
    obtain ⟨k', v'⟩ := p
    by_cases h : k' = k <;> simp [mapErase, h, ih]

theorem closeClient_idem (c : UpstreamState) :
    closeClient (closeClient c) = closeClient c := rfl

theorem mapGet_mapSet_ne (m : List (String × RateLimitRecord)) (k k' : String)
    (v : RateLimitRecord) (h : k ≠ k') :
    mapGet (mapSet m k v) k' = mapGet m k' := by
  induction m with
  | nil => simp [mapGet, mapSet, h]
  | cons p rest ih =>
    obtain ⟨k0, v0⟩ := p
    by_cases h0 : k0 = k <;> simp [mapGet, mapSet, h0, h, ih]

/-- A failed rate-limit check leaves the state untouched. -/
theorem checkRateLimit_false_snd (now : Nat) (st : ConnState)
    (h : (checkRateLimit now st).1 = false) : (checkRateLimit now st).2 = st := by
  unfold checkRateLimit at h ⊢
  cases hm : mapGet st.rateLimits st.connectionId
  · rfl
  · rename_i limit
    rw [hm] at h
    dsimp only at h ⊢
    by_cases h1 : now > limit.resetAt
    · simp [h1] at h
    · by_cases h2 : limit.count ≥ RATE_LIMIT_PER_SEC
      · simp [h1, h2]
      · simp [h1, h2] at h

/-- The rate-limit check only ever touches the rate-limit registry. -/
theorem checkRateLimit_snd (now : Nat) (st : ConnState) :
    (checkRateLimit now st).2 = { st with rateLimits := (checkRateLimit now st).2.rateLimits } := by
  unfold checkRateLimit
  cases hm : mapGet st.rateLimits st.connectionId
  · rfl
  · dsimp only
    split
    · rfl
    · split <;> rfl

theorem sameCore_rateLimits (st : ConnState) (m : List (String × RateLimitRecord)) :
    sameCore st { st with rateLimits := m } := by
  simp [sameCore]

/-- The rate-limit check changes nothing beyond the rate-limit registry. -/
theorem checkRateLimit_core (now : Nat) (st : ConnState) :
    ∃ m, (checkRateLimit now st).2 = { st with rateLimits := m } :=
  ⟨_, checkRateLimit_snd now st⟩

/-- The cleanup routine never emits a RATE_LIMIT-coded error frame. -/
theorem closeConnection_no_rate_limit (r : String) (s : ConnState) :
    (closeConnection r s).2.filter isRateLimitReject = [] := by
  rcases hst : s.sessionTimeout <;> rcases hoc : s.openaiClient <;>
    rcases hso : s.socketOpen <;>
    simp [closeConnection, sendToClient, isRateLimitReject, hst, hoc, hso]

/-! ### Concrete scenario traces -/

/-- Auth with a token issued by the generateTokens helper of the system itself, then session.start. -/
def c1Trace : List Trigger :=
  [Trigger.msg 0 (ClientMsg.auth (some (generateTokens "user-1"))) ConnectOutcome.success,
   Trigger.msg 1 (ClientMsg.sessionStart none) ConnectOutcome.success]

/-- Auth, successful session start, unilateral upstream close, then explicit session.end. -/
def c2Trace : List Trigger :=
  [Trigger.msg 0 (ClientMsg.auth (some tokenJudge)) ConnectOutcome.success,
   Trigger.msg 1 (ClientMsg.sessionStart none) ConnectOutcome.success,
   Trigger.upstreamClose,
   Trigger.msg 2 ClientMsg.sessionEnd ConnectOutcome.success]

/-- Auth and successful session start, reaching a session-active state. -/
def c3Trace : List Trigger :=
  [Trigger.msg 0 (ClientMsg.auth (some tokenJudge)) ConnectOutcome.success,
   Trigger.msg 1 (ClientMsg.sessionStart none) ConnectOutcome.success]

/-- Ten frames at t=500 and five more at t=1001: fifteen frames inside one
rolling one-second span, straddling the fixed window boundary at t=1000. -/
def c5Trace : List Trigger :=
  List.replicate 10 (Trigger.msg 500 (ClientMsg.other "x") ConnectOutcome.success) ++
  List.replicate 5 (Trigger.msg 1001 (ClientMsg.other "x") ConnectOutcome.success)

/-- Auth, a session.start whose upstream connect times out (the client
reference is retained, disconnected), then an audio.chunk frame. -/
def c8Trace : List Trigger :=
  [Trigger.msg 0 (ClientMsg.auth (some tokenJudge)) ConnectOutcome.success,
   Trigger.msg 1 (ClientMsg.sessionStart none) ConnectOutcome.connectTimeout,
   Trigger.msg 2 (ClientMsg.audioChunk (some ("AAAA"))) ConnectOutcome.success]

/-- A session-active connection state used to instantiate witnesses. -/
def activeState : ConnState :=
  { connectionId := "w", userId := some ("u"),
    openaiClient := some { wsOpen := true, isConnected := true, currentResponseItemId := none },
    sessionTimeout := some 0, timers := [(0, 600000)], nextTimerId := 1,
    rateLimits := [("w", ⟨1, 1000⟩)], socketOpen := true }

/-! ### Claim theorems -/

/-- C1: a connection that authenticates with a token issued by the
generateTokens helper itself (payload carries only the sub claim) gets auth.success,
yet the recorded subject stays unset because the voice route reads a userId
claim that generateTokens never signs; the subsequent session.start is
answered with a NOT_AUTHENTICATED error and no upstream session is built.
This evaluates the code at the failing input of the claim. -/
theorem C1_system_token_yields_not_authenticated :
    (run (initConn "conn-1" 0) c1Trace).2 =
      [Action.emit Frame.authSuccess,
       Action.emit (Frame.errorOut "Not authenticated" "NOT_AUTHENTICATED")] ∧
    (run (initConn "conn-1" 0) c1Trace).1.userId = none ∧
    (run (initConn "conn-1" 0) c1Trace).1.openaiClient = none := by
  exact ⟨rfl, rfl, rfl⟩

/-- C2 counterexample: an upstream onClose followed by an explicit
session.end produces two session.ended frames on one connection, refuting
the exactly-one property as stated. -/
theorem C2_counterexample_two_session_ended :
    countSessionEnded (run (initConn "conn-2" 0) c2Trace).2 = 2 := by
  rfl

/-- C3 counterexample: in the session-active state reached by c3Trace, the
upstream onClose callback emits session.ended but leaves the session timer
armed, the rate-limit record in the registry and the inbound socket open —
the uniform cleanup does not run. -/
theorem C3_counterexample_no_cleanup_on_upstream_close :
    (handleUpstreamClose (run (initConn "conn-3" 0) c3Trace).1).2 =
      [Action.emit (Frame.sessionEnded "OpenAI connection closed")] ∧
    (handleUpstreamClose (run (initConn "conn-3" 0) c3Trace).1).1.timers = [(0, 600001)] ∧
    (handleUpstreamClose (run (initConn "conn-3" 0) c3Trace).1).1.rateLimits =
      [("conn-3", ⟨1, 1000⟩)] ∧
    (handleUpstreamClose (run (initConn "conn-3" 0) c3Trace).1).1.socketOpen = true := by
  exact ⟨rfl, rfl, rfl, rfl⟩

/-- C4 counterexample: an interrupt frame on a connection that never
authenticated produces no action at all — in particular no error frame with
a rejection code — refuting the claim that each of the three pre-auth
frames yields a machine-readable rejection. -/
theorem C4_counterexample_silent_interrupt :
    (run (initConn "conn-4" 0) [Trigger.msg 5 ClientMsg.interrupt ConnectOutcome.success]).2
      = [] := by
  rfl

/-- C5 counterexample: fifteen non-auth frames inside a 501 ms span (all of
them inside one rolling one-second window) are all accepted with no
RATE_LIMIT rejection, because the limiter uses a fixed lazily-reset window
that rolls over at t=1000. -/
theorem C5_counterexample_burst_across_window_boundary :
    (run (initConn "conn-5" 0) c5Trace).2.filter isRateLimitReject = [] ∧
    c5Trace.length = 15 ∧ 1001 - 500 < 1000 := by
  exact ⟨rfl, rfl, by decide⟩

/-- C8 counterexample: after a session.start whose upstream connect failed,
the client reference is retained though disconnected; a subsequent
audio.chunk frame yields neither a NO_SESSION error nor any upstream send —
it is silently dropped, refuting the claim as stated. -/
theorem C8_counterexample_silent_drop_after_failed_connect :
    (run (initConn "conn-8" 0) c8Trace).2 =
      [Action.emit Frame.authSuccess, Action.upstreamCreate "sage", Action.upstreamConnect,
       Action.emit (Frame.errorOut "Failed to start voice session" "CONNECTION_FAILED")] ∧
    (run (initConn "conn-8" 0) c8Trace).1.openaiClient =
      some { wsOpen := false, isConnected := false, currentResponseItemId := none } := by
  exact ⟨rfl, rfl⟩

/-- C2 (amended): the cleanup routine itself emits exactly one session.ended
frame when it finds the socket still open, and running it a second time is
harmless: the second run changes no state and emits nothing to the client.
The exactly-one-per-connection property fails only because the upstream
onClose handler emits session.ended outside the cleanup routine. -/
theorem C2_cleanup_idempotent (st : ConnState) (r r' : String) (h : st.socketOpen = true) :
    countSessionEnded (closeConnection r st).2 = 1 ∧
    (closeConnection r' (closeConnection r st).1).1 = (closeConnection r st).1 ∧
    (closeConnection r' (closeConnection r st).1).2.filter isEmit = [] := by
  cases hst : st.sessionTimeout <;> cases hoc : st.openaiClient <;>
    simp [closeConnection, sendToClient, h, hst, hoc, countSessionEnded, isSessionEnded,
          isEmit, removeTimer_idem, mapErase_idem, closeClient]

/-- Witness for C2: the amended cleanup property evaluated at a concrete
session-active state. -/
theorem C2_cleanup_idempotent_witness :
    countSessionEnded (closeConnection "end" activeState).2 = 1 ∧
    (closeConnection "again" (closeConnection "end" activeState).1).1 =
      (closeConnection "end" activeState).1 ∧
    (closeConnection "again" (closeConnection "end" activeState).1).2.filter isEmit = [] :=
  C2_cleanup_idempotent activeState "end" "again" rfl

/-- C3 (amended): when the upstream onClose callback fires with a client
attached, the manager only emits a session.ended frame (subject to the
socket being open) and records the client as disconnected; the session
timer, the rate-limit record, the inbound socket and all remaining state
are untouched — the uniform cleanup does not run on this trigger. -/
theorem C3_upstream_close_emits_only (st : ConnState) (c : UpstreamState)
    (h : st.openaiClient = some c) :
    (handleUpstreamClose st).2 =
      sendToClient st (Frame.sessionEnded "OpenAI connection closed") ∧
    (handleUpstreamClose st).1 =
      { st with openaiClient := some { c with wsOpen := false, isConnected := false } } := by
  simp [handleUpstreamClose, h, sendToClient]

/-- Witness for C3: the amended onClose behavior at a concrete active state. -/
theorem C3_upstream_close_emits_only_witness :
    (handleUpstreamClose activeState).2 =
      sendToClient activeState (Frame.sessionEnded "OpenAI connection closed") ∧
    (handleUpstreamClose activeState).1 =
      { activeState with
        openaiClient := some { wsOpen := false, isConnected := false,
                               currentResponseItemId := none } } :=
  C3_upstream_close_emits_only activeState
    { wsOpen := true, isConnected := true, currentResponseItemId := none } rfl

/-- C10: when the upstream socket errors before the handshake completes, the
pre-wired onError callback emits an error frame coded OPENAI_ERROR, and the
rejected connect is then caught by session.start, emitting a second error
frame coded CONNECTION_FAILED: the client receives exactly these two error
frames, in that order, for the single failed connect. -/
theorem C10_two_error_frames_on_failed_connect (st : ConnState) (now : Nat)
    (voice : Option String) (emsg : String)
    (hu : truthy st.userId = true) (hs : st.socketOpen = true) :
    (handleSessionStart now voice (ConnectOutcome.errorBeforeOpen emsg) st).2.filter isEmit =
      [Action.emit (Frame.errorOut emsg "OPENAI_ERROR"),
       Action.emit (Frame.errorOut "Failed to start voice session" "CONNECTION_FAILED")] := by
  cases hoc : st.openaiClient <;>
    simp [handleSessionStart, hu, hoc, sendToClient, hs, isEmit]

/-- Witness for C10: the double error emission at a concrete authenticated state. -/
theorem C10_two_error_frames_on_failed_connect_witness :
    (handleSessionStart 7 none (ConnectOutcome.errorBeforeOpen "boom") activeState).2.filter
        isEmit =
      [Action.emit (Frame.errorOut "boom" "OPENAI_ERROR"),
       Action.emit (Frame.errorOut "Failed to start voice session" "CONNECTION_FAILED")] :=
  C10_two_error_frames_on_failed_connect activeState 7 none "boom" rfl rfl

/-- C4 (amended): before a successful auth (no recorded subject, no upstream
client), with the rate limiter passing the frame and the socket open: an
audio.chunk frame is rejected with a NO_SESSION error, a session.start
frame is rejected with a NOT_AUTHENTICATED error, and an interrupt frame is
silently ignored with no error frame at all; none of the three is accepted,
and apart from the rate-limit bookkeeping the connection state is unchanged
in each case. -/
theorem C4_preauth_frames_rejected (st : ConnState) (now : Nat) (outcome : ConnectOutcome)
    (audio voice : Option String)
    (hu : st.userId = none) (hc : st.openaiClient = none) (hs : st.socketOpen = true)
    (hr : (checkRateLimit now st).1 = true) :
    ((handleClientMessage now (ClientMsg.audioChunk audio) outcome st).2 =
        [Action.emit (Frame.errorOut "No active session" "NO_SESSION")] ∧
      sameCore st (handleClientMessage now (ClientMsg.audioChunk audio) outcome st).1) ∧
    ((handleClientMessage now (ClientMsg.sessionStart voice) outcome st).2 =
        [Action.emit (Frame.errorOut "Not authenticated" "NOT_AUTHENTICATED")] ∧
      sameCore st (handleClientMessage now (ClientMsg.sessionStart voice) outcome st).1) ∧
    ((handleClientMessage now ClientMsg.interrupt outcome st).2 = [] ∧
      sameCore st (handleClientMessage now ClientMsg.interrupt outcome st).1) := by
  obtain ⟨m, hm⟩ := checkRateLimit_core now st
  refine ⟨⟨?_, ?_⟩, ⟨?_, ?_⟩, ?_, ?_⟩ <;>
    simp [handleClientMessage, isAuthMsg, hr, hm, dispatch, handleSessionStart, truthy,
          hu, hc, hs, sendToClient, sameCore]

/-- Witness for C4: the three pre-auth rejections at the freshly accepted state. -/
theorem C4_preauth_frames_rejected_witness :
    ((handleClientMessage 5 (ClientMsg.audioChunk (some ("A"))) ConnectOutcome.success
          (initConn "w4" 0)).2 =
        [Action.emit (Frame.errorOut "No active session" "NO_SESSION")] ∧
      sameCore (initConn "w4" 0)
        (handleClientMessage 5 (ClientMsg.audioChunk (some ("A"))) ConnectOutcome.success
          (initConn "w4" 0)).1) ∧
    ((handleClientMessage 5 (ClientMsg.sessionStart none) ConnectOutcome.success
          (initConn "w4" 0)).2 =
        [Action.emit (Frame.errorOut "Not authenticated" "NOT_AUTHENTICATED")] ∧
      sameCore (initConn "w4" 0)
        (handleClientMessage 5 (ClientMsg.sessionStart none) ConnectOutcome.success
          (initConn "w4" 0)).1) ∧
    ((handleClientMessage 5 ClientMsg.interrupt ConnectOutcome.success (initConn "w4" 0)).2
        = [] ∧
      sameCore (initConn "w4" 0)
        (handleClientMessage 5 ClientMsg.interrupt ConnectOutcome.success
          (initConn "w4" 0)).1) :=
  C4_preauth_frames_rejected (initConn "w4" 0) 5 ConnectOutcome.success (some ("A")) none
    rfl rfl rfl rfl

/-- C5 (amended): the limiter is a fixed, lazily-reset one-second window of
ten, not a rolling window: (a) while the window has not elapsed and the
count has reached the limit, the check rejects; (b) a rejected non-auth
frame is dropped with a single RATE_LIMIT error frame and no further
processing and no state change; (c) a check strictly after the reset
timestamp lazily resets the window to count 1; (d) auth frames never
produce a RATE_LIMIT rejection; (e) a check on one connection leaves every
record of every sibling connection untouched. -/
theorem C5_fixed_window_rate_limiting (st : ConnState) (now : Nat) (m : ClientMsg)
    (outcome : ConnectOutcome) (rec : RateLimitRecord) (k : String) (tok : Option Token) :
    (mapGet st.rateLimits st.connectionId = some rec → rec.count ≥ RATE_LIMIT_PER_SEC →
      ¬ now > rec.resetAt → (checkRateLimit now st).1 = false) ∧
    (isAuthMsg m = false → m ≠ ClientMsg.malformed → (checkRateLimit now st).1 = false →
      st.socketOpen = true →
      handleClientMessage now m outcome st =
        (st, [Action.emit (Frame.errorOut "Rate limit exceeded" "RATE_LIMIT")])) ∧
    (mapGet st.rateLimits st.connectionId = some rec → now > rec.resetAt →
      checkRateLimit now st =
        (true, { st with rateLimits :=
                   mapSet st.rateLimits st.connectionId ⟨1, now + 1000⟩ })) ∧
    ((handleClientMessage now (ClientMsg.auth tok) outcome st).2.filter isRateLimitReject
        = []) ∧
    (k ≠ st.connectionId →
      mapGet (checkRateLimit now st).2.rateLimits k = mapGet st.rateLimits k) := by
  refine ⟨?_, ?_, ?_, ?_, ?_⟩
  · intro hg hcount hwin
    unfold checkRateLimit
    rw [hg]
    simp [hwin, hcount]
  · intro h1 h2 h3 h4
    have hsnd := checkRateLimit_false_snd now st h3
    cases m <;>
      simp_all [handleClientMessage, isAuthMsg, sendToClient]
  · intro hg hwin
    unfold checkRateLimit
    rw [hg]
    simp [hwin]
  · cases tok with
    | none =>
      simp [handleClientMessage, isAuthMsg, dispatch, sendToClient, isRateLimitReject,
            closeConnection_no_rate_limit, List.filter_append]
    | some t =>
      rcases hv : t.signatureValid <;>
        simp [handleClientMessage, isAuthMsg, dispatch, authenticateConn, jwtVerify, hv,
              sendToClient, isRateLimitReject, closeConnection_no_rate_limit,
              List.filter_append]
  · intro hk
    unfold checkRateLimit
    cases hg : mapGet st.rateLimits st.connectionId
    · rfl
    · rename_i limit
      dsimp only
      by_cases h1 : now > limit.resetAt <;>
        by_cases h2 : limit.count ≥ RATE_LIMIT_PER_SEC <;>
        simp [h1, h2, mapGet_mapSet_ne _ _ _ _ (Ne.symm hk)]

/-- A connection state whose rate-limit window is full, with a sibling record. -/
def limitedState : ConnState :=
  { connectionId := "w5", userId := some ("u"), openaiClient := none,
    sessionTimeout := none, timers := [], nextTimerId := 0,
    rateLimits := [("w5", ⟨10, 1000⟩), ("sib", ⟨3, 1000⟩)], socketOpen := true }

/-- Witness for C5: the five amended conjuncts at a concrete full-window state. -/
theorem C5_fixed_window_rate_limiting_witness :
    (checkRateLimit 900 limitedState).1 = false ∧
    handleClientMessage 900 (ClientMsg.other "x") ConnectOutcome.success limitedState =
      (limitedState, [Action.emit (Frame.errorOut "Rate limit exceeded" "RATE_LIMIT")]) ∧
    checkRateLimit 1500 limitedState =
      (true, { limitedState with
               rateLimits := mapSet limitedState.rateLimits "w5" ⟨1, 2500⟩ }) ∧
    (handleClientMessage 900 (ClientMsg.auth none) ConnectOutcome.success
        limitedState).2.filter isRateLimitReject = [] ∧
    mapGet (checkRateLimit 900 limitedState).2.rateLimits "sib" =
      mapGet limitedState.rateLimits "sib" := by
  have T := C5_fixed_window_rate_limiting limitedState 900 (ClientMsg.other "x")
    ConnectOutcome.success ⟨10, 1000⟩ "sib" none
  have T2 := C5_fixed_window_rate_limiting limitedState 1500 (ClientMsg.other "x")
    ConnectOutcome.success ⟨10, 1000⟩ "sib" none
  exact ⟨T.1 rfl (by decide) (by decide),
         T.2.1 rfl (by decide) (T.1 rfl (by decide) (by decide)) rfl,
         T2.2.2.1 rfl (by decide),
         T.2.2.2.1,
         T.2.2.2.2 (by decide)⟩

/-- C6: handling session.start on a connection that already has an upstream
client attached first invokes the close operation of the existing client, then
constructs and connects the new client — close strictly precedes create in
the action order — and the resulting state again holds exactly one attached
upstream client (the field is a single optional reference). -/
theorem C6_close_before_create (st : ConnState) (now : Nat) (voice : Option String)
    (outcome : ConnectOutcome) (c : UpstreamState)
    (hu : truthy st.userId = true) (hc : st.openaiClient = some c) :
    (∃ rest, (handleSessionStart now voice outcome st).2 =
      Action.upstreamCloseCall ::
        Action.upstreamCreate ((jsOr voice (some ("sage"))).getD "sage") ::
        Action.upstreamConnect :: rest) ∧
    (∃ c', (handleSessionStart now voice outcome st).1.openaiClient = some c') := by
  cases outcome <;>
    simp [handleSessionStart, hu, hc, sendToClient]

/-- Witness for C6: session.start at the active state closes the old client first. -/
theorem C6_close_before_create_witness :
    (∃ rest, (handleSessionStart 9 none ConnectOutcome.success activeState).2 =
      Action.upstreamCloseCall ::
        Action.upstreamCreate ((jsOr none (some ("sage"))).getD "sage") ::
        Action.upstreamConnect :: rest) ∧
    (∃ c', (handleSessionStart 9 none ConnectOutcome.success activeState).1.openaiClient
        = some c') :=
  C6_close_before_create activeState 9 none ConnectOutcome.success
    { wsOpen := true, isConnected := true, currentResponseItemId := none } rfl rfl

/-- C7: the session timer is absolute and non-sliding. (a) On a successful
session.start connect it is armed exactly once, with deadline exactly
now + 600000 ms; (b) failed connects arm nothing and leave the timers
alone; (c)-(f) no audio.chunk, interrupt, unknown or malformed frame, and
no successful auth frame, touches the armed timers or the tracked handle;
(g) every live timer survives any further session.start with its deadline
unchanged; (h) a live timer firing routes into the uniform cleanup with
reason Session timeout, force-ending the session. -/
theorem C7_absolute_session_timer (st : ConnState) (now : Nat) (voice audio : Option String)
    (outcome : ConnectOutcome) (ty : String) (tok : Token) (id d : Nat) :
    (truthy st.userId = true → st.openaiClient = none →
      (handleSessionStart now voice ConnectOutcome.success st).1.sessionTimeout =
          some st.nextTimerId ∧
      (handleSessionStart now voice ConnectOutcome.success st).1.timers =
          st.timers ++ [(st.nextTimerId, now + SESSION_TIMEOUT_MS)] ∧
      (handleSessionStart now voice ConnectOutcome.success st).2.filter isArmTimer =
          [Action.armTimer st.nextTimerId (now + SESSION_TIMEOUT_MS)]) ∧
    (outcome ≠ ConnectOutcome.success →
      (handleSessionStart now voice outcome st).2.filter isArmTimer = [] ∧
      (handleSessionStart now voice outcome st).1.timers = st.timers) ∧
    ((handleClientMessage now (ClientMsg.audioChunk audio) outcome st).1.timers = st.timers ∧
      (handleClientMessage now (ClientMsg.audioChunk audio) outcome st).1.sessionTimeout =
        st.sessionTimeout) ∧
    ((handleClientMessage now ClientMsg.interrupt outcome st).1.timers = st.timers ∧
      (handleClientMessage now ClientMsg.interrupt outcome st).1.sessionTimeout =
        st.sessionTimeout) ∧
    ((handleClientMessage now (ClientMsg.other ty) outcome st).1.timers = st.timers ∧
      (handleClientMessage now (ClientMsg.other ty) outcome st).1.sessionTimeout =
        st.sessionTimeout) ∧
    ((handleClientMessage now ClientMsg.malformed outcome st).1.timers = st.timers ∧
      (handleClientMessage now ClientMsg.malformed outcome st).1.sessionTimeout =
        st.sessionTimeout) ∧
    ((authenticateConn st tok).1 = true →
      (handleClientMessage now (ClientMsg.auth (some tok)) outcome st).1.timers = st.timers ∧
      (handleClientMessage now (ClientMsg.auth (some tok)) outcome st).1.sessionTimeout =
        st.sessionTimeout) ∧
    ((id, d) ∈ st.timers → (id, d) ∈ (handleSessionStart now voice outcome st).1.timers) ∧
    (st.timers.any (fun p => p.1 == id) = true →
      handleTimerFire id st =
        closeConnection "Session timeout" { st with timers := removeTimer st.timers id }) := by
  obtain ⟨mm, hmm⟩ := checkRateLimit_core now st
  refine ⟨?_, ?_, ?_, ?_, ?_, ?_, ?_, ?_, ?_⟩
  · intro hu hc
    rcases hso : st.socketOpen <;>
      simp [handleSessionStart, hu, hc, hso, sendToClient, isArmTimer]
  · intro hne
    cases outcome with
    | success => exact absurd rfl hne
    | errorBeforeOpen m0 =>
      by_cases hu : truthy st.userId <;> rcases hoc : st.openaiClient <;>
        rcases hso : st.socketOpen <;>
        simp [handleSessionStart, hu, hoc, hso, sendToClient, isArmTimer]
    | connectTimeout =>
      by_cases hu : truthy st.userId <;> rcases hoc : st.openaiClient <;>
        rcases hso : st.socketOpen <;>
        simp [handleSessionStart, hu, hoc, hso, sendToClient, isArmTimer]
  · by_cases hrc : (checkRateLimit now st).1 <;> rcases hoc : st.openaiClient <;>
      by_cases hta : truthy audio <;>
      simp [handleClientMessage, isAuthMsg, dispatch, hrc, hmm, hoc, hta, sendToClient]
  · by_cases hrc : (checkRateLimit now st).1 <;> rcases hoc : st.openaiClient <;>
      simp [handleClientMessage, isAuthMsg, dispatch, hrc, hmm, hoc, sendToClient]
  · by_cases hrc : (checkRateLimit now st).1 <;>
      simp [handleClientMessage, isAuthMsg, dispatch, hrc, hmm, sendToClient]
  · simp [handleClientMessage, sendToClient]
  · intro ht
    unfold authenticateConn at ht
    rcases hv : jwtVerify tok with _ | payload <;> rw [hv] at ht
    · simp at ht
    · simp [handleClientMessage, isAuthMsg, dispatch, authenticateConn, hv, sendToClient]
  · intro hmem
    cases outcome <;> by_cases hu : truthy st.userId <;>
      rcases hoc : st.openaiClient <;> rcases hso : st.socketOpen <;>
      simp [handleSessionStart, hu, hoc, hso, sendToClient, hmem]
  · intro hfire
    simp [handleTimerFire, hfire]

/-- An authenticated, timer-armed connection state without an upstream
client, used to instantiate the timer witnesses. -/
def timerState : ConnState :=
  { connectionId := "w7", userId := some ("u"), openaiClient := none,
    sessionTimeout := some 0, timers := [(0, 600000)], nextTimerId := 1,
    rateLimits := [("w7", ⟨1, 1000⟩)], socketOpen := true }

/-- Witness for C7: all timer conjuncts evaluated at a concrete state. -/
theorem C7_absolute_session_timer_witness :
    ((handleSessionStart 9 none ConnectOutcome.success timerState).1.sessionTimeout =
        some timerState.nextTimerId ∧
      (handleSessionStart 9 none ConnectOutcome.success timerState).1.timers =
        timerState.timers ++ [(timerState.nextTimerId, 9 + SESSION_TIMEOUT_MS)] ∧
      (handleSessionStart 9 none ConnectOutcome.success timerState).2.filter isArmTimer =
        [Action.armTimer timerState.nextTimerId (9 + SESSION_TIMEOUT_MS)]) ∧
    ((handleSessionStart 9 none ConnectOutcome.connectTimeout timerState).2.filter isArmTimer
        = [] ∧
      (handleSessionStart 9 none ConnectOutcome.connectTimeout timerState).1.timers =
        timerState.timers) ∧
    ((handleClientMessage 9 (ClientMsg.audioChunk (some ("A"))) ConnectOutcome.connectTimeout
          timerState).1.timers = timerState.timers ∧
      (handleClientMessage 9 (ClientMsg.audioChunk (some ("A"))) ConnectOutcome.connectTimeout
          timerState).1.sessionTimeout = timerState.sessionTimeout) ∧
    ((handleClientMessage 9 ClientMsg.interrupt ConnectOutcome.connectTimeout
          timerState).1.timers = timerState.timers ∧
      (handleClientMessage 9 ClientMsg.interrupt ConnectOutcome.connectTimeout
          timerState).1.sessionTimeout = timerState.sessionTimeout) ∧
    ((handleClientMessage 9 (ClientMsg.other "zz") ConnectOutcome.connectTimeout
          timerState).1.timers = timerState.timers ∧
      (handleClientMessage 9 (ClientMsg.other "zz") ConnectOutcome.connectTimeout
          timerState).1.sessionTimeout = timerState.sessionTimeout) ∧
    ((handleClientMessage 9 ClientMsg.malformed ConnectOutcome.connectTimeout
          timerState).1.timers = timerState.timers ∧
      (handleClientMessage 9 ClientMsg.malformed ConnectOutcome.connectTimeout
          timerState).1.sessionTimeout = timerState.sessionTimeout) ∧
    ((handleClientMessage 9 (ClientMsg.auth (some tokenJudge)) ConnectOutcome.connectTimeout
          timerState).1.timers = timerState.timers ∧
      (handleClientMessage 9 (ClientMsg.auth (some tokenJudge)) ConnectOutcome.connectTimeout
          timerState).1.sessionTimeout = timerState.sessionTimeout) ∧
    ((0, 600000) ∈
      (handleSessionStart 9 none ConnectOutcome.connectTimeout timerState).1.timers) ∧
    (handleTimerFire 0 timerState =
      closeConnection "Session timeout"
        { timerState with timers := removeTimer timerState.timers 0 }) := by
  have T := C7_absolute_session_timer timerState 9 none (some ("A"))
    ConnectOutcome.connectTimeout "zz" tokenJudge 0 600000
  exact ⟨T.1 (by decide) rfl, T.2.1 (by decide), T.2.2.1, T.2.2.2.1, T.2.2.2.2.1,
         T.2.2.2.2.2.1, T.2.2.2.2.2.2.1 rfl, T.2.2.2.2.2.2.2.1 (by decide),
         T.2.2.2.2.2.2.2.2 rfl⟩

/-- C8 (amended): a NO_SESSION error is emitted exactly when no upstream
client object exists (null reference); when a connected client exists and
the frame carries a non-empty audio field, the payload is forwarded
verbatim as a single input_audio_buffer.append frame; when a client exists
but is not connected (for example after a failed connect, whose reference
the manager retains), the frame is silently dropped — no error, nothing
upstream; in every case nothing beyond the rate-limit bookkeeping changes. -/
theorem C8_audio_forwarding (st : ConnState) (now : Nat) (outcome : ConnectOutcome)
    (audio : Option String)
    (hr : (checkRateLimit now st).1 = true) (hs : st.socketOpen = true) :
    (st.openaiClient = none →
      (handleClientMessage now (ClientMsg.audioChunk audio) outcome st).2 =
        [Action.emit (Frame.errorOut "No active session" "NO_SESSION")]) ∧
    (∀ c a, st.openaiClient = some c → c.isConnected = true → c.wsOpen = true →
      audio = some a → a ≠ "" →
      (handleClientMessage now (ClientMsg.audioChunk audio) outcome st).2 =
        [Action.upstreamSend (UpFrame.inputAudioBufferAppend a)]) ∧
    (∀ c, st.openaiClient = some c → c.isConnected = false →
      (handleClientMessage now (ClientMsg.audioChunk audio) outcome st).2 = []) ∧
    sameCore st (handleClientMessage now (ClientMsg.audioChunk audio) outcome st).1 := by
  obtain ⟨mm, hmm⟩ := checkRateLimit_core now st
  refine ⟨?_, ?_, ?_, ?_⟩
  · intro hc
    simp [handleClientMessage, isAuthMsg, hr, hmm, dispatch, hc, sendToClient, hs]
  · intro c a hc hconn hws ha hne
    subst ha
    simp [handleClientMessage, isAuthMsg, hr, hmm, dispatch, hc, truthy, hne,
          sendAudio, hconn, upSend, hws]
  · intro c hc hconn
    by_cases hta : truthy audio <;>
      simp [handleClientMessage, isAuthMsg, hr, hmm, dispatch, hc, hta, sendAudio, hconn]
  · rcases hoc : st.openaiClient <;> by_cases hta : truthy audio <;>
      simp [handleClientMessage, isAuthMsg, hr, hmm, dispatch, hoc, hta, sameCore,
            sendToClient]

/-- Witness for C8: verbatim forwarding on a connected session, and the
core state staying unchanged. -/
theorem C8_audio_forwarding_witness :
    (handleClientMessage 5 (ClientMsg.audioChunk (some ("QUJD"))) ConnectOutcome.success
        activeState).2 = [Action.upstreamSend (UpFrame.inputAudioBufferAppend "QUJD")] ∧
    sameCore activeState
      (handleClientMessage 5 (ClientMsg.audioChunk (some ("QUJD"))) ConnectOutcome.success
        activeState).1 := by
  have T := C8_audio_forwarding activeState 5 ConnectOutcome.success (some ("QUJD")) rfl rfl
  exact ⟨T.2.1 { wsOpen := true, isConnected := true, currentResponseItemId := none } "QUJD"
           rfl rfl rfl rfl (by decide), T.2.2.2⟩

/-- Modelled on the claim text, for comparison with the code path: the id
passed to callbacks is the item_id field of the event itself when present,
otherwise the recorded current response item, otherwise "unknown". -/
def specItemId : Option String → Option String → String
  | some s, _ => s
  | none, some s => s
  | none, none => "unknown"

/-- On events whose id fields are never the empty string, the
JavaScript-truthiness chain of the code agrees with the spec-side resolution. -/
theorem resolveItemId_eq_spec (a b : Option String)
    (ha : ∀ s, a = some s → s ≠ "") (hb : ∀ s, b = some s → s ≠ "") :
    resolveItemId a b = specItemId a b := by
  rcases a with _ | sa <;> rcases b with _ | sb <;>
    simp_all [resolveItemId, jsOr, truthy, specItemId]

/-- C9: for audio-delta, audio-done, transcript-delta and transcript-done
events the callback receives the item id resolved as: the item_id of the event itself
when present, else the recorded current response item (set by the
last output-item-added event of kind message), else the sentinel
"unknown"; and a response-done event clears the recorded current item. -/
theorem C9_item_id_resolution (st : UpstreamState) (m : UpstreamEvent)
    (hid : ∀ s, m.item_id = some s → s ≠ "")
    (hcur : ∀ s, st.currentResponseItemId = some s → s ≠ "") :
    (m.type = "response.audio.delta" → truthy m.delta = true →
      (handleUpstreamMessage st m).2 =
        [CallbackEvent.onAudioDelta (m.delta.getD "")
          (specItemId m.item_id st.currentResponseItemId)]) ∧
    (m.type = "response.audio.done" →
      (handleUpstreamMessage st m).2 =
        [CallbackEvent.onAudioDone (specItemId m.item_id st.currentResponseItemId)]) ∧
    (m.type = "response.audio_transcript.delta" → truthy m.delta = true →
      (handleUpstreamMessage st m).2 =
        [CallbackEvent.onTranscriptDelta (m.delta.getD "")
          (specItemId m.item_id st.currentResponseItemId)]) ∧
    (m.type = "response.audio_transcript.done" → truthy m.transcript = true →
      (handleUpstreamMessage st m).2 =
        [CallbackEvent.onTranscriptDone (m.transcript.getD "")
          (specItemId m.item_id st.currentResponseItemId)]) ∧
    (m.type = "response.done" →
      (handleUpstreamMessage st m).1.currentResponseItemId = none) ∧
    (m.type = "response.output_item.added" → m.itemType = some ("message") →
      (handleUpstreamMessage st m).1.currentResponseItemId = m.itemFieldId) := by
  have hres := resolveItemId_eq_spec m.item_id st.currentResponseItemId hid hcur
  refine ⟨?_, ?_, ?_, ?_, ?_, ?_⟩
  · intro ht htr
    simp [handleUpstreamMessage, ht, htr, hres]
  · intro ht
    simp [handleUpstreamMessage, ht, hres]
  · intro ht htr
    simp [handleUpstreamMessage, ht, htr, hres]
  · intro ht htr
    simp [handleUpstreamMessage, ht, htr, hres]
  · intro ht
    simp [handleUpstreamMessage, ht]
  · intro ht hit
    simp [handleUpstreamMessage, ht, hit]

/-- A connected upstream client state with a recorded current item. -/
def upStateW : UpstreamState :=
  { wsOpen := true, isConnected := true, currentResponseItemId := some ("item-1") }

/-- An audio-delta event carrying no item_id of its own. -/
def deltaEventW : UpstreamEvent :=
  { type := "response.audio.delta", delta := some ("zzz") }

/-- Witness for C9: an audio delta without its own id falls back to the
recorded current item. -/
theorem C9_item_id_resolution_witness :
    (handleUpstreamMessage upStateW deltaEventW).2 =
      [CallbackEvent.onAudioDelta (deltaEventW.delta.getD "")
        (specItemId deltaEventW.item_id upStateW.currentResponseItemId)] := by
  have T := C9_item_id_resolution upStateW deltaEventW
    (by intro s h; exact absurd h (by simp [deltaEventW]))
    (by intro s h; simp [upStateW] at h; subst h; decide)
  exact T.1 rfl rfl

end Chambers
